import Mathlib

/-!
Shallow embedding of the product-feed validator and schema-markup mapper
(`src/app.py`) and proofs about its validation and mapping behaviour.

Modelling conventions:
* A cell value is either a string or the pandas null (`NaN`); CSV cells and
  scraped dictionary values are modelled in their textual form.
* `pd.isna` is `vNaN`; the absence test at the top of `validate_field`
  (`pd.isna(value) or value == '' or value is None`) is `isAbsentVal`.
* Python `float(...)` on a string is modelled exactly for finite decimal /
  scientific notation over ASCII digits (`pyParseFloat`), returning an exact
  rational; the special spellings `inf` / `nan` and digit underscores are not
  modelled (for `int(float(...))` those raise and take the same error branch
  as a parse failure, which the model reproduces for `inf` / `nan`).
* `validators.url` is an external library predicate; it is passed in as an
  opaque boolean function `urlValid` so every theorem holds for all of its
  behaviours.
* Python character predicates (whitespace, digits, lowercasing) are modelled
  over the ASCII range used by the repository's data.
-/

/-- A pandas/CSV cell value: a string, or the null value `NaN`
(`pd.isna` is true exactly on `vNaN`). -/
inductive PyVal where
  | vStr (s : String)
  | vNaN
deriving DecidableEq, Repr

/-- The test opening `validate_field`:
`pd.isna(value) or value == '' or value is None`. -/
def isAbsentVal : PyVal → Bool
  | .vStr s => s = ""
  | .vNaN => true

/-- Python `str(value)` on a cell value (`str(nan) = "nan"`). -/
def pyStrOfVal : PyVal → String
  | .vStr s => s
  | .vNaN => "nan"

/-- Helper for Python `str.split()`: accumulate the current token (reversed)
while splitting a character list on whitespace runs, discarding empties. -/
def splitWsAux : List Char → List Char → List String
  | [], acc => if acc = [] then [] else [String.mk acc.reverse]
  | c :: cs, acc =>
      if c.isWhitespace then
        if acc = [] then splitWsAux cs [] else String.mk acc.reverse :: splitWsAux cs []
      else splitWsAux cs (c :: acc)

/-- Python `s.split()` with no separator: split on whitespace runs,
dropping empty tokens. -/
def pySplit (s : String) : List String := splitWsAux s.toList []

/-- Numeric value of an ASCII digit string (most significant first). -/
def digitsVal (cs : List Char) : Nat :=
  cs.foldl (fun a c => a * 10 + (c.toNat - 48)) 0

/-- The exact value of a parsed Python float literal, kept as a sign and a
raw fraction `num / den` with `den` a power of ten (IEEE rounding of the
Python float is abstracted away; every value any claim touches is exact). -/
structure PyFloat where
  neg : Bool
  num : Nat
  den : Nat
deriving DecidableEq, Repr

/-- The exact rational value of a parsed float literal. -/
def PyFloat.val (f : PyFloat) : ℚ :=
  (if f.neg then -1 else 1) * mkRat f.num f.den

/-- Trailing exponent of a Python float literal: empty, or `e`/`E`, an
optional sign and a nonempty digit run ending the string. -/
def parseExpPart (m : PyFloat) : List Char → Option PyFloat
  | [] => some m
  | c :: rest =>
      if c = 'e' ∨ c = 'E' then
        let signAndRest : Bool × List Char :=
          match rest with
          | '+' :: r => (false, r)
          | '-' :: r => (true, r)
          | r => (false, r)
        let ds := signAndRest.2.takeWhile Char.isDigit
        if ds = [] ∨ signAndRest.2.dropWhile Char.isDigit ≠ [] then none
        else if signAndRest.1 then some { m with den := m.den * 10 ^ digitsVal ds }
        else some { m with num := m.num * 10 ^ digitsVal ds }
      else none

/-- Unsigned part of a Python float literal: digits, optionally a dot and
more digits (at least one digit overall), then an optional exponent. -/
def parseUnsigned (cs : List Char) : Option PyFloat :=
  let ip := cs.takeWhile Char.isDigit
  let rest := cs.dropWhile Char.isDigit
  match rest with
  | '.' :: rest2 =>
      let fp := rest2.takeWhile Char.isDigit
      let rest3 := rest2.dropWhile Char.isDigit
      if ip = [] ∧ fp = [] then none
      else
        parseExpPart
          { neg := false, num := digitsVal (ip ++ fp), den := 10 ^ fp.length } rest3
  | _ =>
      if ip = [] then none
      else parseExpPart { neg := false, num := digitsVal ip, den := 1 } rest

/-- Python `float(s)` for a string: strip surrounding whitespace, optional
sign, decimal or scientific literal; `none` models a `ValueError`. -/
def pyParseFloat (s : String) : Option PyFloat :=
  let cs := ((s.toList.dropWhile Char.isWhitespace).reverse.dropWhile
      Char.isWhitespace).reverse
  match cs with
  | '-' :: rest => (parseUnsigned rest).map (fun f => { f with neg := true })
  | '+' :: rest => parseUnsigned rest
  | _ => parseUnsigned cs

/-- Truncation toward zero, as Python `int(...)` applied to a float. -/
def pyTrunc (f : PyFloat) : Int :=
  if f.neg then -((f.num / f.den : Nat) : Int) else ((f.num / f.den : Nat) : Int)

/-- Python `int(float(s))`: `none` models the raised `ValueError`. -/
def pyIntOfStr (s : String) : Option Int :=
  (pyParseFloat s).map pyTrunc

/-- ASCII lowercase of one character. -/
def lowerCh (c : Char) : Char :=
  if 'A' ≤ c ∧ c ≤ 'Z' then Char.ofNat (c.toNat + 32) else c

/-- Python `s.lower()` over the ASCII range used by the repository. -/
def pyLower (s : String) : String := String.mk (s.toList.map lowerCh)

/-- The one regular-expression shape used by the registry:
`^\d{lo,hi}$` (a run of `lo` to `hi` digits spanning the whole string;
Python's `\d` is modelled over ASCII digits). -/
inductive Pattern where
  | digitRange (lo hi : Nat)
deriving DecidableEq, Repr

/-- `re.match` of a registry pattern against the whole string
(the registry's only pattern is anchored on both sides). -/
def patMatch : Pattern → String → Bool
  | .digitRange lo hi, s =>
      lo ≤ s.length ∧ s.length ≤ hi ∧ s.toList.all Char.isDigit

/-- The declared type of a field in the specification table. -/
inductive FType where
  | fString
  | fURL
  | fEnum
  | fInteger
  | fNumber
deriving DecidableEq, Repr

/-- The `required` entry of a spec: Python `True`, `False` or the string
`'conditional'` (only `== True` is ever tested by the code). -/
inductive ReqStatus where
  | rTrue
  | rFalse
  | rConditional
deriving DecidableEq, Repr

/-- One entry of the specification table loaded by `load_specifications`. -/
structure FieldSpec where
  ftype : FType
  required : ReqStatus
  recommended : Bool := false
  max_length : Option Nat := none
  pattern : Option Pattern := none
  values : List String := []
deriving DecidableEq, Repr

/-- `validate_field(field_name, value, spec)` from `src/app.py`, returning
the `(errors, warnings)` pair. `urlValid` stands for the external
`validators.url` predicate. -/
def validate_field (urlValid : String → Bool) (field_name : String)
    (value : PyVal) (spec : FieldSpec) : List String × List String :=
  if isAbsentVal value then
    if spec.required = .rTrue then
      (["Required field '" ++ field_name ++ "' is missing"], [])
    else if spec.recommended then
      ([], ["Recommended field '" ++ field_name ++ "' is missing"])
    else ([], [])
  else
    let s := pyStrOfVal value
    let typeErrs : List String :=
      match spec.ftype with
      | .fString =>
          match spec.max_length with
          | some ml =>
              if s.length > ml then
                ["'" ++ field_name ++ "' exceeds max length of " ++ toString ml
                  ++ " characters"]
              else []
          | none => []
      | .fURL =>
          if urlValid s then [] else ["'" ++ field_name ++ "' is not a valid URL"]
      | .fEnum =>
          if (spec.values.map pyLower).contains (pyLower s) then []
          else
            ["'" ++ field_name ++ "' must be one of:  "
              ++ String.intercalate ", " spec.values]
      | .fInteger =>
          match pyIntOfStr s with
          | some n => if n < 0 then ["'" ++ field_name ++ "' must be non-negative"] else []
          | none => ["'" ++ field_name ++ "' must be an integer"]
      | .fNumber =>
          match (pySplit s).head? with
          | some tok =>
              match pyParseFloat tok with
              | some _ => []
              | none => ["'" ++ field_name ++ "' must be a number"]
          | none => ["'" ++ field_name ++ "' must be a number"]
    let patErrs : List String :=
      match spec.pattern with
      | some p =>
          if patMatch p s then []
          else ["'" ++ field_name ++ "' does not match required pattern"]
      | none => []
    (typeErrs ++ patErrs, [])

/-- The specification table of `load_specifications` in `src/app.py`,
in its insertion order. -/
def chatGptSpecs : List (String × FieldSpec) :=
  [("enable_search", { ftype := .fEnum, required := .rTrue, values := ["true", "false"] }),
   ("enable_checkout", { ftype := .fEnum, required := .rTrue, values := ["true", "false"] }),
   ("id", { ftype := .fString, required := .rTrue, max_length := some 100 }),
   ("gtin", { ftype := .fString, required := .rFalse, recommended := true,
              pattern := some (.digitRange 8 14) }),
   ("mpn", { ftype := .fString, required := .rConditional, max_length := some 70 }),
   ("title", { ftype := .fString, required := .rTrue, max_length := some 150 }),
   ("description", { ftype := .fString, required := .rTrue, max_length := some 5000 }),
   ("link", { ftype := .fURL, required := .rTrue }),
   ("condition", { ftype := .fEnum, required := .rConditional,
                   values := ["new", "refurbished", "used"] }),
   ("product_category", { ftype := .fString, required := .rTrue }),
   ("brand", { ftype := .fString, required := .rConditional, max_length := some 70 }),
   ("material", { ftype := .fString, required := .rTrue, max_length := some 100 }),
   ("weight", { ftype := .fNumber, required := .rTrue }),
   ("image_link", { ftype := .fURL, required := .rTrue }),
   ("price", { ftype := .fNumber, required := .rTrue }),
   ("availability", { ftype := .fEnum, required := .rTrue,
                      values := ["in_stock", "out_of_stock", "preorder"] }),
   ("inventory_quantity", { ftype := .fInteger, required := .rTrue }),
   ("seller_name", { ftype := .fString, required := .rTrue, max_length := some 70 }),
   ("seller_url", { ftype := .fURL, required := .rTrue }),
   ("return_policy", { ftype := .fURL, required := .rTrue }),
   ("return_window", { ftype := .fInteger, required := .rTrue })]

/-- One row of the feed, as column name to cell value; a column missing
from the association list reads as `NaN` (`rowCell`). -/
def Row := List (String × PyVal)

/-- Cell of a row for a declared column (pandas rows are total over the
frame's columns, absent entries being `NaN`). -/
def rowCell (row : Row) (c : String) : PyVal :=
  (List.lookup c row).getD .vNaN

/-- The uploaded/scraped `DataFrame`: its column list and its rows. -/
structure Frame where
  columns : List String
  rows : List Row

/-- Number of rows whose cell for column `f` is not null:
`df[f].notna().sum()` (an empty string is *not* null and counts). -/
def notnaCount (frame : Frame) (f : String) : Nat :=
  (frame.rows.filter (fun r => rowCell r f ≠ PyVal.vNaN)).length

/-- Coverage entry of one field in the results dictionary. -/
structure Coverage where
  present : Bool
  filled : Nat
  percentage : Option ℚ
deriving DecidableEq, Repr

/-- `(non_empty / len(df)) * 100` of the coverage pass. The division is a
numpy scalar true-division: dividing by a zero row count yields the IEEE
`NaN` (modelled as `none`) rather than raising; otherwise the value is the
exact quotient `filled * 100 / total`. -/
def covPercentage (filled total : Nat) : Option ℚ :=
  if total = 0 then none else some (mkRat (filled * 100) total)

/-- The "Check field coverage" loop of `validate_product_feed`: returns the
`field_coverage` entries together with the `missing_required_fields` and
`missing_recommended_fields` accumulators, in spec order. -/
def coveragePass (frame : Frame) : List (String × FieldSpec) →
    List (String × Coverage) × List String × List String
  | [] => ([], [], [])
  | (f, sp) :: rest =>
      let acc := coveragePass frame rest
      if f ∈ frame.columns then
        ((f, ⟨true, notnaCount frame f,
              covPercentage (notnaCount frame f) frame.rows.length⟩) :: acc.1,
         acc.2.1, acc.2.2)
      else
        ((f, ⟨false, 0, some 0⟩) :: acc.1,
         (if sp.required = .rTrue then f :: acc.2.1 else acc.2.1),
         (if sp.required ≠ .rTrue ∧ sp.recommended then f :: acc.2.2 else acc.2.2))

/-- Inner loop of the per-product pass: run `validate_field` for every spec
field that the frame declares a column for, accumulating errors and
warnings in spec order. -/
def rowIssues (urlValid : String → Bool) (frame : Frame) (row : Row) :
    List (String × FieldSpec) → List String × List String
  | [] => ([], [])
  | (f, sp) :: rest =>
      let acc := rowIssues urlValid frame row rest
      if f ∈ frame.columns then
        let issues := validate_field urlValid f (rowCell row f) sp
        (issues.1 ++ acc.1, issues.2 ++ acc.2)
      else acc

/-- `row.get('id', f'Row {idx}')`: the id cell when the frame has an `id`
column, else the positional label. -/
def productId (frame : Frame) (row : Row) (idx : Nat) : PyVal :=
  if "id" ∈ frame.columns then rowCell row "id" else .vStr ("Row " ++ toString idx)

/-- One entry of `all_errors` / `all_warnings`. -/
structure IssueEntry where
  product_id : PyVal
  messages : List String
deriving DecidableEq, Repr

/-- The "Validate each product" loop: counts of products with errors /
warnings and the `all_errors` / `all_warnings` entries, rows indexed from
`idx`. -/
def recordPass (urlValid : String → Bool) (frame : Frame)
    (specs : List (String × FieldSpec)) :
    Nat → List Row → Nat × Nat × List IssueEntry × List IssueEntry
  | _, [] => (0, 0, [], [])
  | idx, row :: rest =>
      let issues := rowIssues urlValid frame row specs
      let acc := recordPass urlValid frame specs (idx + 1) rest
      ((if issues.1 = [] then acc.1 else acc.1 + 1),
       (if issues.2 = [] then acc.2.1 else acc.2.1 + 1),
       (if issues.1 = [] then acc.2.2.1
        else ⟨productId frame row idx, issues.1⟩ :: acc.2.2.1),
       (if issues.2 = [] then acc.2.2.2
        else ⟨productId frame row idx, issues.2⟩ :: acc.2.2.2))

/-- The `results` dictionary of `validate_product_feed` (the two Python
sets are kept in their deterministic spec-order as lists). -/
structure FeedResults where
  total_products : Nat
  products_with_errors : Nat
  products_with_warnings : Nat
  field_coverage : List (String × Coverage)
  all_errors : List IssueEntry
  all_warnings : List IssueEntry
  missing_required_fields : List String
  missing_recommended_fields : List String
deriving DecidableEq, Repr

/-- `validate_product_feed(df, specs)` from `src/app.py`. -/
def validate_product_feed (urlValid : String → Bool) (frame : Frame)
    (specs : List (String × FieldSpec)) : FeedResults :=
  ⟨frame.rows.length,
   (recordPass urlValid frame specs 0 frame.rows).1,
   (recordPass urlValid frame specs 0 frame.rows).2.1,
   (coveragePass frame specs).1,
   (recordPass urlValid frame specs 0 frame.rows).2.2.1,
   (recordPass urlValid frame specs 0 frame.rows).2.2.2,
   (coveragePass frame specs).2.1,
   (coveragePass frame specs).2.2⟩

/-- A JSON-like value of the schema.org markup: a string, an object
(association list in insertion order) or an array. All keys written by the
mapper are distinct, so object lookup by first occurrence models the
Python dict. -/
inductive SVal where
  | s (v : String)
  | obj (kvs : List (String × SVal))
  | arr (vs : List SVal)

mutual

/-- Python `repr` of a JSON-like value (used by `str` on containers). Its
exact text only feeds branches that no generated markup reaches. -/
def pyReprVal : SVal → String
  | .s v => "'" ++ v ++ "'"
  | .obj kvs => "\x7b" ++ pyReprPairs kvs ++ "\x7d"
  | .arr vs => "[" ++ pyReprElems vs ++ "]"

/-- Comma-separated `repr` of the pairs of a dict display. -/
def pyReprPairs : List (String × SVal) → String
  | [] => ""
  | [(k, v)] => "'" ++ k ++ "': " ++ pyReprVal v
  | (k, v) :: rest => "'" ++ k ++ "': " ++ pyReprVal v ++ ", " ++ pyReprPairs rest

/-- Comma-separated `repr` of the elements of a list display. -/
def pyReprElems : List SVal → String
  | [] => ""
  | [v] => pyReprVal v
  | v :: rest => pyReprVal v ++ ", " ++ pyReprElems rest

end

/-- Python `str` of a JSON-like value (strings print bare; containers print
their `repr`). -/
def pyFStr : SVal → String
  | .s v => v
  | .obj kvs => "\x7b" ++ pyReprPairs kvs ++ "\x7d"
  | .arr vs => "[" ++ pyReprElems vs ++ "]"

/-- `field_mapping` of `generate_schema_markup`: CSV field to schema.org
property, in insertion order. -/
def field_mapping : List (String × String) :=
  [("id", "sku"), ("title", "name"), ("description", "description"),
   ("link", "url"), ("brand", "brand"), ("gtin", "gtin"), ("mpn", "mpn"),
   ("image_link", "image"), ("material", "material"), ("weight", "weight")]

/-- `csv_field in product_data and pd.notna(product_data[csv_field])`,
together with the `str(value)` conversion: the string carried by a present,
non-null cell. -/
def definedStr (p : Row) (f : String) : Option String :=
  match List.lookup f p with
  | some (.vStr s) => some s
  | _ => none

/-- One iteration of the `field_mapping` loop: at most one markup entry;
`brand` is wrapped as a `Brand` sub-object, every other property (including
`image`) is the plain string. -/
def mapEntry (p : Row) (csv sk : String) : List (String × SVal) :=
  match definedStr p csv with
  | some v =>
      [(sk, if sk = "brand" then .obj [("@type", .s "Brand"), ("name", .s v)]
            else .s v)]
  | none => []

/-- `availability_map` of `generate_schema_markup`. -/
def availability_map : List (String × String) :=
  [("in_stock", "https://schema.org/InStock"),
   ("out_of_stock", "https://schema.org/OutOfStock"),
   ("preorder", "https://schema.org/PreOrder")]

/-- `availability_map.get(value.lower(), 'https://schema.org/InStock')`. -/
def availLookup (a : String) : String :=
  (List.lookup a availability_map).getD "https://schema.org/InStock"

/-- The conditional `availability` entry of the offer: the availability
value lowered and mapped through `availability_map`. -/
def offerAvailEntry (p : Row) : List (String × SVal) :=
  match definedStr p "availability" with
  | some a => [("availability", SVal.s (availLookup (pyLower a)))]
  | none => []

/-- The conditional `url` entry of the offer (the record's link). -/
def offerUrlEntry (p : Row) : List (String × SVal) :=
  match definedStr p "link" with
  | some l => [("url", SVal.s l)]
  | none => []

/-- The conditional `seller` entry of the offer. -/
def offerSellerEntry (p : Row) : List (String × SVal) :=
  match definedStr p "seller_name" with
  | some sn =>
      [("seller", SVal.obj [("@type", .s "Organization"), ("name", .s sn)])]
  | none => []

/-- `price_parts[0] if price_parts else price_str`. -/
def headTok (price_str : String) : String :=
  match pySplit price_str with
  | t :: _ => t
  | [] => price_str

/-- `price_parts[1] if len(price_parts) > 1 else "USD"`. -/
def secondTok (price_str : String) : String :=
  match pySplit price_str with
  | _ :: c :: _ => c
  | _ => "USD"

/-- The nested `Offer` object: price and currency split from the price
text, then the conditional entries. -/
def offerObj (p : Row) (price_str : String) : List (String × SVal) :=
  [("@type", .s "Offer"),
   ("price", .s (headTok price_str)),
   ("priceCurrency", .s (secondTok price_str))]
  ++ offerAvailEntry p ++ offerUrlEntry p ++ offerSellerEntry p

/-- The "Add offers" block: when a non-null price is present, the nested
`Offer` object keyed `offers`. -/
def offerPart (p : Row) : List (String × SVal) :=
  match definedStr p "price" with
  | none => []
  | some price_str => [("offers", .obj (offerObj p price_str))]

/-- The "Add aggregateRating" block. -/
def ratingPart (p : Row) : List (String × SVal) :=
  match definedStr p "product_review_rating" with
  | none => []
  | some rv =>
      [("aggregateRating",
        .obj ([("@type", .s "AggregateRating"), ("ratingValue", .s rv)]
          ++ (match definedStr p "product_review_count" with
              | some rc => [("reviewCount", SVal.s rc)]
              | none => [])))]

/-- `generate_schema_markup(product_data)` from `src/app.py`. -/
def generate_schema_markup (p : Row) : List (String × SVal) :=
  [("@context", .s "https://schema.org/"), ("@type", .s "Product")]
  ++ (field_mapping.map (fun e => mapEntry p e.1 e.2)).flatten
  ++ offerPart p
  ++ ratingPart p

/-- `mapping` of `extract_product_from_schema`: schema.org property back to
CSV field, in insertion order. -/
def extract_mapping : List (String × String) :=
  [("name", "title"), ("description", "description"), ("url", "link"),
   ("image", "image_link"), ("sku", "id"), ("gtin", "gtin"), ("mpn", "mpn"),
   ("material", "material")]

/-- Value normalization of the extractor's mapping loop: a dict becomes its
`name` entry (default `str(value)`), a nonempty list its head, anything
else itself (an empty list is falsy and stays). -/
def extractMapVal : SVal → SVal
  | .obj kvs =>
      match List.lookup "name" kvs with
      | some v => v
      | none => .s (pyFStr (.obj kvs))
  | .arr (v :: _) => v
  | v => v

/-- One iteration of the extractor's mapping loop. -/
def extEntry (schema : List (String × SVal)) (sk ck : String) :
    List (String × SVal) :=
  match List.lookup sk schema with
  | some v => [(ck, extractMapVal v)]
  | none => []

/-- The whole mapping loop of the extractor. -/
def extractEntries (schema : List (String × SVal)) :
    List (String × String) → List (String × SVal)
  | [] => []
  | (sk, ck) :: rest => extEntry schema sk ck ++ extractEntries schema rest

/-- `needle` starts the character list `hay`. -/
def startsWithCh : List Char → List Char → Bool
  | [], _ => true
  | _ :: _, [] => false
  | a :: as, b :: bs => a == b && startsWithCh as bs

/-- Python substring containment `needle in hay` over character lists. -/
def hasSubCh (needle : List Char) : List Char → Bool
  | [] => startsWithCh needle []
  | h :: t => startsWithCh needle (h :: t) || hasSubCh needle t

/-- The "Extract brand" block: a dict brand becomes its `name` entry
(default the dict itself), anything else passes through. -/
def brandPart (schema : List (String × SVal)) : List (String × SVal) :=
  match List.lookup "brand" schema with
  | none => []
  | some (.obj kvs) => [("brand", (List.lookup "name" kvs).getD (.obj kvs))]
  | some v => [("brand", v)]

/-- The `'instock' in avail` / `'outofstock' in avail` / `'preorder' in
avail` substring chain of the extractor's availability normalization, over
the lowered availability text; no match adds no key. -/
def availExtractChain (al : List Char) : List (String × SVal) :=
  if hasSubCh "instock".toList al then [("availability", SVal.s "in_stock")]
  else if hasSubCh "outofstock".toList al then
    [("availability", SVal.s "out_of_stock")]
  else if hasSubCh "preorder".toList al then
    [("availability", SVal.s "preorder")]
  else []

/-- The "Extract offers" block. `none` models a raised exception:
`offers[0]` on an empty list, or `.lower()` on a non-string availability. -/
def offersExtract (schema : List (String × SVal)) :
    Option (List (String × SVal)) :=
  match List.lookup "offers" schema with
  | none => some []
  | some o =>
      match (match o with
             | .arr [] => none
             | .arr (x :: _) => some x
             | v => some v) with
      | none => none
      | some (SVal.obj kvs) =>
          let pricePart : List (String × SVal) :=
            match List.lookup "price" kvs with
            | none => []
            | some pv =>
                let currency :=
                  match List.lookup "priceCurrency" kvs with
                  | some cv => pyFStr cv
                  | none => "USD"
                [("price", .s (pyFStr pv ++ " " ++ currency))]
          match List.lookup "availability" kvs with
          | none => some pricePart
          | some (SVal.s a) =>
              some (pricePart ++ availExtractChain (pyLower a).toList)
          | some _ => none
      | some _ => some []

/-- The "Extract ratings" block: when `aggregateRating` is a dict, both
rating fields are set, defaulting to the empty string. -/
def ratingExtract (schema : List (String × SVal)) : List (String × SVal) :=
  match List.lookup "aggregateRating" schema with
  | some (.obj kvs) =>
      [("product_review_rating", (List.lookup "ratingValue" kvs).getD (.s "")),
       ("product_review_count", (List.lookup "reviewCount" kvs).getD (.s ""))]
  | _ => []

/-- `extract_product_from_schema(schema_data)` from `src/app.py`; the
product dict's insertion order is mapping loop, brand, offers, ratings
(all keys distinct). `none` models a raised exception. -/
def extract_product_from_schema (schema : List (String × SVal)) :
    Option (List (String × SVal)) :=
  match offersExtract schema with
  | none => none
  | some offers =>
      some (extractEntries schema extract_mapping ++ brandPart schema
            ++ offers ++ ratingExtract schema)

/-! ## Shared concrete inputs and helper lemmas -/

/-- An arbitrary instantiation of the external URL validator, used for
concrete batches that declare no URL column. -/
def uvTrue : String → Bool := fun _ => true

/-- The registry's `gtin` spec (the only recommended, non-required field). -/
def gtinSpec : FieldSpec :=
  { ftype := .fString, required := .rFalse, recommended := true,
    pattern := some (.digitRange 8 14) }

/-- The registry's `title` spec. -/
def titleSpec : FieldSpec :=
  { ftype := .fString, required := .rTrue, max_length := some 150 }

/-- The registry's `material` spec. -/
def materialSpec : FieldSpec :=
  { ftype := .fString, required := .rTrue, max_length := some 100 }

/-- The batch `[{title: "Shoe"}]` (one record, only a `title` column). -/
def frameTitleOnly : Frame := ⟨["title"], [[("title", PyVal.vStr "Shoe")]]⟩

/-- A zero-record batch that still declares a `title` column (as produced
by a CSV holding only a header row). -/
def frameZeroRows : Frame := ⟨["title"], []⟩

/-- A one-record batch whose only cell is the empty string. -/
def frameEmptyCell : Frame := ⟨["material"], [[("material", PyVal.vStr "")]]⟩

/-- A ten-record batch in which exactly three records fill `title`. -/
def frameThreeOfTen : Frame :=
  ⟨["title"],
   [[("title", PyVal.vStr "A")], [("title", PyVal.vStr "B")],
    [("title", PyVal.vStr "C")], [("title", PyVal.vNaN)], [("title", PyVal.vNaN)],
    [("title", PyVal.vNaN)], [("title", PyVal.vNaN)], [("title", PyVal.vNaN)],
    [("title", PyVal.vNaN)], [("title", PyVal.vNaN)]]⟩

/-- A concrete fully-populated record for round-trip evaluation. -/
def rowRoundtrip : Row :=
  [("id", PyVal.vStr "SKU1"), ("title", PyVal.vStr "Shoe"),
   ("description", PyVal.vStr "Trail shoe"),
   ("link", PyVal.vStr "https://a.com/p"), ("brand", PyVal.vStr "Acme"),
   ("image_link", PyVal.vStr "https://a.com/i.jpg"),
   ("price", PyVal.vStr "79.99 USD"), ("availability", PyVal.vStr "in_stock")]

/-- First-match choice between two optional results, as association-list
lookup distributes over append. -/
def oOr {α : Type} : Option α → Option α → Option α
  | some a, _ => some a
  | none, b => b

theorem lookup_append {β : Type} (a : String) (l1 l2 : List (String × β)) :
    List.lookup a (l1 ++ l2) = oOr (List.lookup a l1) (List.lookup a l2) := by
  induction l1 with
  | nil => simp [oOr]
  | cons hd tl ih =>
      obtain ⟨k, v⟩ := hd
      cases hk : a == k <;> simp [List.lookup, hk, oOr, ih]

theorem lookup_single_ne {β : Type} {k key : String} (x : β)
    (h : (k == key) = false) : List.lookup k [(key, x)] = none := by
  simp [List.lookup, h]

theorem mapEntry_lookup_ne (p : Row) (csv sk k : String)
    (h : (k == sk) = false) : List.lookup k (mapEntry p csv sk) = none := by
  cases hd : definedStr p csv <;> simp [mapEntry, hd, List.lookup, h]

theorem mapEntry_absent (p : Row) (csv sk : String)
    (h : definedStr p csv = none) : mapEntry p csv sk = [] := by
  simp [mapEntry, h]

theorem offerPart_lookup_ne (p : Row) (k : String)
    (h : (k == "offers") = false) : List.lookup k (offerPart p) = none := by
  cases hd : definedStr p "price" <;> simp [offerPart, hd, List.lookup, h]

theorem ratingPart_lookup_ne (p : Row) (k : String)
    (h : (k == "aggregateRating") = false) :
    List.lookup k (ratingPart p) = none := by
  cases hd : definedStr p "product_review_rating" <;>
    simp [ratingPart, hd, List.lookup, h]

theorem extEntry_lookup_ne (schema : List (String × SVal)) (sk ck k : String)
    (h : (k == ck) = false) : List.lookup k (extEntry schema sk ck) = none := by
  cases hd : List.lookup sk schema <;> simp [extEntry, hd, List.lookup, h]

theorem brandPart_lookup_ne (schema : List (String × SVal)) (k : String)
    (h : (k == "brand") = false) : List.lookup k (brandPart schema) = none := by
  cases hd : List.lookup "brand" schema with
  | none => simp [brandPart, hd]
  | some v => cases v <;> simp [brandPart, hd, List.lookup, h]

theorem ratingExtract_lookup_ne (schema : List (String × SVal)) (k : String)
    (h1 : (k == "product_review_rating") = false)
    (h2 : (k == "product_review_count") = false) :
    List.lookup k (ratingExtract schema) = none := by
  cases hd : List.lookup "aggregateRating" schema with
  | none => simp [ratingExtract, hd]
  | some v => cases v <;> simp [ratingExtract, hd, List.lookup, h1, h2]

/-- The coverage pass produces, for every field of the spec table, exactly
the entry its branch computes. -/
theorem coverage_mem (frame : Frame) (f : String) (sp : FieldSpec) :
    ∀ specs : List (String × FieldSpec), (f, sp) ∈ specs →
      ((f ∈ frame.columns →
          (f, ⟨true, notnaCount frame f,
               covPercentage (notnaCount frame f) frame.rows.length⟩)
            ∈ (coveragePass frame specs).1)
       ∧ (f ∉ frame.columns →
          (f, ⟨false, 0, some 0⟩) ∈ (coveragePass frame specs).1)) := by
  intro specs
  induction specs with
  | nil => intro h; exact absurd h (List.not_mem_nil _)
  | cons hd tl ih =>
      intro h
      obtain ⟨g, sq⟩ := hd
      rcases List.mem_cons.mp h with heq | hmem
      · obtain ⟨hf, hs⟩ := Prod.mk.injEq .. ▸ heq
        subst hf
        constructor
        · intro hc
          simp only [coveragePass, if_pos hc]
          exact List.mem_cons_self _ _
        · intro hc
          simp only [coveragePass, if_neg hc]
          exact List.mem_cons_self _ _
      · have htl := ih hmem
        constructor
        · intro hc
          by_cases hg : g ∈ frame.columns
          · simp only [coveragePass, if_pos hg]
            exact List.mem_cons_of_mem _ (htl.1 hc)
          · simp only [coveragePass, if_neg hg]
            exact List.mem_cons_of_mem _ (htl.1 hc)
        · intro hc
          by_cases hg : g ∈ frame.columns
          · simp only [coveragePass, if_pos hg]
            exact List.mem_cons_of_mem _ (htl.2 hc)
          · simp only [coveragePass, if_neg hg]
            exact List.mem_cons_of_mem _ (htl.2 hc)

/-! ## Claim theorems -/

/-- C5: when a field value is absent/empty/null, `validate_field` emits
exactly one "Required field ... is missing" error when the spec is required,
exactly one "Recommended field ... is missing" warning when the spec is
recommended but not required, and returns immediately, so no type or
pattern issues are produced for that field. -/
theorem absent_field_single_issue (urlValid : String → Bool) (name : String)
    (v : PyVal) (spec : FieldSpec) (h : isAbsentVal v = true) :
    (spec.required = .rTrue →
       validate_field urlValid name v spec
         = (["Required field '" ++ name ++ "' is missing"], []))
  ∧ (spec.required ≠ .rTrue → spec.recommended = true →
       validate_field urlValid name v spec
         = ([], ["Recommended field '" ++ name ++ "' is missing"]))
  ∧ (spec.required ≠ .rTrue → spec.recommended = false →
       validate_field urlValid name v spec = ([], [])) := by
  refine ⟨fun h1 => ?_, fun h1 h2 => ?_, fun h1 h2 => ?_⟩ <;>
    simp [validate_field, h, h1]
  · simp [h2]
  · simp [h2]

/-- Witness for C5 at concrete inputs: a missing required `id` and a
missing recommended `gtin`. -/
theorem absent_field_single_issue_witness :
    validate_field uvTrue "id" PyVal.vNaN
        { ftype := .fString, required := .rTrue, max_length := some 100 }
      = (["Required field 'id' is missing"], [])
  ∧ validate_field uvTrue "gtin" PyVal.vNaN gtinSpec
      = ([], ["Recommended field 'gtin' is missing"]) :=
  ⟨(absent_field_single_issue uvTrue "id" PyVal.vNaN _ (by decide)).1 rfl,
   (absent_field_single_issue uvTrue "gtin" PyVal.vNaN gtinSpec (by decide)).2.1
     (by decide) rfl⟩

/-- C7: integer validation parses the value as a real number and truncates
toward zero: `"3.9"` parses to `3` and passes, `"-1"` fails the
non-negative check, `"abc"` fails the type check. -/
theorem integer_validation_truncates (urlValid : String → Bool)
    (name : String) (spec : FieldSpec) (ht : spec.ftype = .fInteger)
    (hp : spec.pattern = none) :
    pyIntOfStr "3.9" = some 3
  ∧ validate_field urlValid name (.vStr "3.9") spec = ([], [])
  ∧ validate_field urlValid name (.vStr "-1") spec
      = (["'" ++ name ++ "' must be non-negative"], [])
  ∧ validate_field urlValid name (.vStr "abc") spec
      = (["'" ++ name ++ "' must be an integer"], []) := by
  refine ⟨by decide, ?_, ?_, ?_⟩ <;>
    simp [validate_field, ht, hp, isAbsentVal, pyStrOfVal,
      show pyIntOfStr "3.9" = some 3 from by decide,
      show pyIntOfStr "-1" = some (-1) from by decide,
      show pyIntOfStr "abc" = none from by decide]

/-- Witness for C7 at the registry's `inventory_quantity` spec. -/
theorem integer_validation_truncates_witness :
    pyIntOfStr "3.9" = some 3
  ∧ validate_field uvTrue "inventory_quantity" (.vStr "3.9")
      { ftype := .fInteger, required := .rTrue } = ([], [])
  ∧ validate_field uvTrue "inventory_quantity" (.vStr "-1")
      { ftype := .fInteger, required := .rTrue }
      = (["'inventory_quantity' must be non-negative"], [])
  ∧ validate_field uvTrue "inventory_quantity" (.vStr "abc")
      { ftype := .fInteger, required := .rTrue }
      = (["'inventory_quantity' must be an integer"], []) :=
  integer_validation_truncates uvTrue "inventory_quantity" _ rfl rfl

/-- C8: number validation splits the raw text on whitespace and parses only
the first token: `"79.99 USD"` passes, `"USD 79.99"` fails. -/
theorem number_validation_first_token (urlValid : String → Bool)
    (name : String) (spec : FieldSpec) (ht : spec.ftype = .fNumber)
    (hp : spec.pattern = none) :
    pySplit "79.99 USD" = ["79.99", "USD"]
  ∧ validate_field urlValid name (.vStr "79.99 USD") spec = ([], [])
  ∧ pySplit "USD 79.99" = ["USD", "79.99"]
  ∧ validate_field urlValid name (.vStr "USD 79.99") spec
      = (["'" ++ name ++ "' must be a number"], []) := by
  refine ⟨by decide, ?_, by decide, ?_⟩ <;>
    simp [validate_field, ht, hp, isAbsentVal, pyStrOfVal,
      show pySplit "79.99 USD" = ["79.99", "USD"] from by decide,
      show pySplit "USD 79.99" = ["USD", "79.99"] from by decide,
      show pyParseFloat "79.99" = some ⟨false, 7999, 100⟩ from by decide,
      show pyParseFloat "USD" = none from by decide]

/-- Witness for C8 at the registry's `price` spec. -/
theorem number_validation_first_token_witness :
    pySplit "79.99 USD" = ["79.99", "USD"]
  ∧ validate_field uvTrue "price" (.vStr "79.99 USD")
      { ftype := .fNumber, required := .rTrue } = ([], [])
  ∧ pySplit "USD 79.99" = ["USD", "79.99"]
  ∧ validate_field uvTrue "price" (.vStr "USD 79.99")
      { ftype := .fNumber, required := .rTrue }
      = (["'price' must be a number"], []) :=
  number_validation_first_token uvTrue "price" _ rfl rfl

/-- C9: enum validation is case-insensitive (`"TRUE"` against
`{"true","false"}` passes), and a membership failure emits one error
listing the allowed values verbatim joined by ", ". -/
theorem enum_validation_case_insensitive (urlValid : String → Bool)
    (name v : String) (spec : FieldSpec) (ht : spec.ftype = .fEnum)
    (hp : spec.pattern = none) :
    (spec.values = ["true", "false"] →
       validate_field urlValid name (.vStr "TRUE") spec = ([], []))
  ∧ (v ≠ "" → (spec.values.map pyLower).contains (pyLower v) = false →
       validate_field urlValid name (.vStr v) spec
         = (["'" ++ name ++ "' must be one of:  "
             ++ String.intercalate ", " spec.values], [])) := by
  constructor
  · intro hv
    simp [validate_field, ht, hp, hv, isAbsentVal, pyStrOfVal,
      show pyLower "TRUE" = "true" from by decide,
      show pyLower "true" = "true" from by decide,
      show pyLower "false" = "false" from by decide]
  · intro hv hc
    have habs : isAbsentVal (.vStr v) = false := by simp [isAbsentVal, hv]
    simp at hc
    simp [validate_field, ht, hp, habs, pyStrOfVal]
    exact hc

/-- Witness for C9 at the registry's `enable_search` spec, with the failing
value `"maybe"`. -/
theorem enum_validation_case_insensitive_witness :
    validate_field uvTrue "enable_search" (.vStr "TRUE")
      { ftype := .fEnum, required := .rTrue, values := ["true", "false"] }
      = ([], [])
  ∧ validate_field uvTrue "enable_search" (.vStr "maybe")
      { ftype := .fEnum, required := .rTrue, values := ["true", "false"] }
      = (["'enable_search' must be one of:  true, false"], []) :=
  ⟨(enum_validation_case_insensitive uvTrue "enable_search" "maybe" _ rfl
      rfl).1 rfl,
   by
    have h := (enum_validation_case_insensitive uvTrue "enable_search" "maybe"
      { ftype := .fEnum, required := .rTrue, values := ["true", "false"] }
      rfl rfl).2 (by decide) (by decide)
    simpa using h⟩

/-- C10: `validate_field` never returns both errors and warnings, returns
at most one warning, and a warning arises only in the absence branch of a
recommended non-required field, with no errors alongside it. -/
theorem validate_field_warning_invariant (urlValid : String → Bool)
    (name : String) (v : PyVal) (spec : FieldSpec) :
    ((validate_field urlValid name v spec).1 = []
       ∨ (validate_field urlValid name v spec).2 = [])
  ∧ (validate_field urlValid name v spec).2.length ≤ 1
  ∧ ((validate_field urlValid name v spec).2 ≠ [] →
       isAbsentVal v = true ∧ spec.required ≠ .rTrue
         ∧ spec.recommended = true
         ∧ (validate_field urlValid name v spec).1 = []) := by
  cases habs : isAbsentVal v
  · simp [validate_field, habs]
  · cases hreq : spec.required <;> cases hrec : spec.recommended <;>
      simp [validate_field, habs, hreq, hrec]

/-- C1 (counterexample): on the batch `[{title:"Shoe"}]` the per-record
pass validates only the declared `title` column, so `all_errors` is empty —
no RecordReport carries any MissingField message for the absent required
fields, contradicting the claimed per-record MissingField errors. -/
theorem single_title_record_no_errors_cex :
    (validate_product_feed uvTrue frameTitleOnly chatGptSpecs).all_errors = []
  ∧ (validate_product_feed uvTrue frameTitleOnly
      chatGptSpecs).products_with_errors = 0 := by
  decide

/-- C1 (amended): for `[{title:"Shoe"}]`, per-record validation runs only
over fields the record declares a column for, so the record report list is
empty; the absent required fields are instead reported feed-level in
`missing_required_fields` (which also contains `description`, omitted by
the claim's list). -/
theorem single_title_record_feed_report :
    (validate_product_feed uvTrue frameTitleOnly chatGptSpecs).all_errors = []
  ∧ (validate_product_feed uvTrue frameTitleOnly
       chatGptSpecs).missing_required_fields
      = ["enable_search", "enable_checkout", "id", "description", "link",
         "product_category", "material", "weight", "image_link", "price",
         "availability", "inventory_quantity", "seller_name", "seller_url",
         "return_policy", "return_window"] := by
  decide

/-- C2 (counterexample): a zero-record batch that still declares a `title`
column reports coverage percentage `NaN` (the numpy 0/0, modelled `none`)
for that field, not 0. -/
theorem zero_rows_declared_column_percentage_cex :
    List.lookup "title"
        (validate_product_feed uvTrue frameZeroRows chatGptSpecs).field_coverage
      = some ⟨true, 0, none⟩
  ∧ (⟨true, 0, none⟩ : Coverage).percentage ≠ some 0 := by
  decide

/-- C2 (amended): every registry field gets a coverage entry; for a
declared column the percentage is `filled / total * 100` when the batch is
non-empty and the `NaN` of the unguarded numpy 0/0 division when it has
zero records; for an undeclared field the percentage is 0. Validation is a
total function, so a zero-record batch always completes. -/
theorem field_coverage_entry (urlValid : String → Bool) (frame : Frame)
    (f : String) (sp : FieldSpec) (h : (f, sp) ∈ chatGptSpecs) :
    (f ∈ frame.columns →
       (f, ⟨true, notnaCount frame f,
            covPercentage (notnaCount frame f) frame.rows.length⟩)
         ∈ (validate_product_feed urlValid frame chatGptSpecs).field_coverage)
  ∧ (f ∉ frame.columns →
       (f, ⟨false, 0, some 0⟩)
         ∈ (validate_product_feed urlValid frame chatGptSpecs).field_coverage)
  ∧ (frame.rows.length ≠ 0 →
       covPercentage (notnaCount frame f) frame.rows.length
         = some (mkRat (notnaCount frame f * 100) frame.rows.length))
  ∧ (frame.rows.length = 0 →
       covPercentage (notnaCount frame f) frame.rows.length = none) := by
  have hm := coverage_mem frame f sp chatGptSpecs h
  exact ⟨hm.1, hm.2, fun hn => by simp [covPercentage, hn],
    fun hn => by simp [covPercentage, hn]⟩

/-- Witness for C2 at a batch where 3 of 10 records fill `title`:
the percentage is exactly 30. -/
theorem field_coverage_entry_witness :
    ("title", ⟨true, notnaCount frameThreeOfTen "title",
       covPercentage (notnaCount frameThreeOfTen "title")
         frameThreeOfTen.rows.length⟩)
      ∈ (validate_product_feed uvTrue frameThreeOfTen chatGptSpecs).field_coverage
  ∧ covPercentage (notnaCount frameThreeOfTen "title")
      frameThreeOfTen.rows.length = some 30 :=
  ⟨(field_coverage_entry uvTrue frameThreeOfTen "title" titleSpec
      (by decide)).1 (by decide),
   by decide⟩

/-- C6 (counterexample): a record carrying the empty string for `material`
DOES count toward `filled` (the code counts `notna`, and `""` is not null):
filled is 1 while the count of present-and-non-empty values is 0. -/
theorem filled_counts_empty_string_cex :
    List.lookup "material"
        (validate_product_feed uvTrue frameEmptyCell chatGptSpecs).field_coverage
      = some ⟨true, 1, some 100⟩
  ∧ (frameEmptyCell.rows.filter
       (fun r => rowCell r "material" ≠ PyVal.vNaN
          ∧ rowCell r "material" ≠ PyVal.vStr "")).length = 0 := by
  decide

/-- C6 (amended): for every registry field with a declared column, the
reported `filled` equals the number of records whose value is present and
non-null (`notna`); an empty string is non-null and counts. -/
theorem filled_count_notna (urlValid : String → Bool) (frame : Frame)
    (f : String) (sp : FieldSpec) (h : (f, sp) ∈ chatGptSpecs)
    (hc : f ∈ frame.columns) :
    (f, ⟨true,
         (frame.rows.filter (fun r => rowCell r f ≠ PyVal.vNaN)).length,
         covPercentage (notnaCount frame f) frame.rows.length⟩)
      ∈ (validate_product_feed urlValid frame chatGptSpecs).field_coverage :=
  (coverage_mem frame f sp chatGptSpecs h).1 hc

/-- Witness for C6 at the one-record batch whose `material` is the empty
string: the notna count (hence `filled`) is 1. -/
theorem filled_count_notna_witness :
    ("material", ⟨true,
       (frameEmptyCell.rows.filter
          (fun r => rowCell r "material" ≠ PyVal.vNaN)).length,
       covPercentage (notnaCount frameEmptyCell "material")
         frameEmptyCell.rows.length⟩)
      ∈ (validate_product_feed uvTrue frameEmptyCell chatGptSpecs).field_coverage
  ∧ (frameEmptyCell.rows.filter
       (fun r => rowCell r "material" ≠ PyVal.vNaN)).length = 1 :=
  ⟨filled_count_notna uvTrue frameEmptyCell "material" materialSpec
     (by decide) (by decide),
   by decide⟩

/-- C4 (counterexample): a record whose `title` is the empty string yields
a markup document that DOES carry a `name` key (holding `""`): the copy
guard is `pd.notna` only, so an empty string is copied. -/
theorem empty_title_name_key_cex :
    List.lookup "name" (generate_schema_markup [("title", PyVal.vStr "")])
      = some (SVal.s "") := rfl

/-- C4 (amended): the markup document never contains an output key for a
source field whose value was absent or null (`NaN`) in the record; a field
is copied exactly when present and non-null, so an empty string is copied. -/
theorem mapped_lookup_none (p : Row) (sk : String) :
    ∀ m : List (String × String),
      (∀ e ∈ m, e.2 = sk → definedStr p e.1 = none) →
      List.lookup sk ((m.map (fun e => mapEntry p e.1 e.2)).flatten) = none := by
  intro m
  induction m with
  | nil => intro _; simp
  | cons hd tl ih =>
      intro h
      obtain ⟨csv, k⟩ := hd
      rw [List.map_cons, List.flatten_cons, lookup_append]
      have htail := ih (fun e he h2 => h e (List.mem_cons_of_mem _ he) h2)
      by_cases hk : k = sk
      · subst hk
        rw [mapEntry_absent p csv k (h (csv, k) (List.mem_cons_self _ _) rfl)]
        simpa [oOr] using htail
      · rw [mapEntry_lookup_ne p csv k sk
          (by simpa using fun hcon => hk hcon.symm)]
        simpa [oOr] using htail

theorem markup_omits_null_fields (p : Row) (csv sk : String)
    (hmem : (csv, sk) ∈ field_mapping) (habs : definedStr p csv = none) :
    List.lookup sk (generate_schema_markup p) = none := by
  have hsk : sk ∈ field_mapping.map Prod.snd := by
    exact List.mem_map.mpr ⟨(csv, sk), hmem, rfl⟩
  have hall : ∀ x ∈ field_mapping.map Prod.snd,
      x ≠ "@context" ∧ x ≠ "@type" ∧ x ≠ "offers"
        ∧ x ≠ "aggregateRating" := by decide
  obtain ⟨h1, h2, h3, h4⟩ := hall sk hsk
  have huniq : ∀ a ∈ field_mapping, ∀ b ∈ field_mapping,
      a.2 = b.2 → a = b := by decide
  have hsnd : ∀ e ∈ field_mapping, e.2 = sk → definedStr p e.1 = none := by
    intro e he h2
    have he2 : e = (csv, sk) := huniq e he (csv, sk) hmem (by rw [h2])
    rw [he2]
    exact habs
  have b1 : (sk == "@context") = false := by simpa using h1
  have b2 : (sk == "@type") = false := by simpa using h2
  unfold generate_schema_markup
  rw [lookup_append, lookup_append, lookup_append,
    mapped_lookup_none p sk field_mapping hsnd,
    offerPart_lookup_ne p sk (by simpa using h3),
    ratingPart_lookup_ne p sk (by simpa using h4)]
  simp [oOr, List.lookup, b1, b2]

/-- Witness for C4: a null `title` produces no `name` key. -/
theorem markup_omits_null_fields_witness :
    List.lookup "name" (generate_schema_markup [("title", PyVal.vNaN)])
      = none :=
  markup_omits_null_fields [("title", PyVal.vNaN)] "title" "name"
    (by decide) rfl

/-- Witness for C10 at a concrete recommended field with an absent value
(the one input shape that produces a warning). -/
theorem validate_field_warning_invariant_witness :
    ((validate_field uvTrue "gtin" PyVal.vNaN gtinSpec).1 = []
       ∨ (validate_field uvTrue "gtin" PyVal.vNaN gtinSpec).2 = [])
  ∧ (validate_field uvTrue "gtin" PyVal.vNaN gtinSpec).2.length ≤ 1
  ∧ ((validate_field uvTrue "gtin" PyVal.vNaN gtinSpec).2 ≠ [] →
       isAbsentVal PyVal.vNaN = true ∧ gtinSpec.required ≠ .rTrue
         ∧ gtinSpec.recommended = true
         ∧ (validate_field uvTrue "gtin" PyVal.vNaN gtinSpec).1 = []) :=
  validate_field_warning_invariant uvTrue "gtin" PyVal.vNaN gtinSpec

theorem offerUrlEntry_lookup_ne (p : Row) (k : String)
    (h : (k == "url") = false) : List.lookup k (offerUrlEntry p) = none := by
  cases hd : definedStr p "link" <;> simp [offerUrlEntry, hd, List.lookup, h]

theorem offerSellerEntry_lookup_ne (p : Row) (k : String)
    (h : (k == "seller") = false) :
    List.lookup k (offerSellerEntry p) = none := by
  cases hd : definedStr p "seller_name" <;>
    simp [offerSellerEntry, hd, List.lookup, h]

theorem mapEntry_defined_plain (p : Row) (csv sk v : String)
    (h : definedStr p csv = some v) (hb : sk ≠ "brand") :
    mapEntry p csv sk = [(sk, SVal.s v)] := by
  simp [mapEntry, h, hb]

theorem mapEntry_defined_brand (p : Row) (csv v : String)
    (h : definedStr p csv = some v) :
    mapEntry p csv "brand"
      = [("brand", SVal.obj [("@type", SVal.s "Brand"), ("name", SVal.s v)])] := by
  simp [mapEntry, h]

theorem extEntry_found (schema : List (String × SVal)) (sk ck : String)
    (v : SVal) (h : List.lookup sk schema = some v) :
    extEntry schema sk ck = [(ck, extractMapVal v)] := by
  simp [extEntry, h]

theorem gen_lookup_name (p : Row) (t : String)
    (ht : definedStr p "title" = some t) :
    List.lookup "name" (generate_schema_markup p) = some (SVal.s t) := by
  simp [generate_schema_markup, field_mapping, lookup_append, oOr, List.lookup,
    mapEntry_lookup_ne, mapEntry_defined_plain p "title" "name" t ht (by decide),
    offerPart_lookup_ne, ratingPart_lookup_ne]

theorem gen_lookup_description (p : Row) (d : String)
    (hd : definedStr p "description" = some d) :
    List.lookup "description" (generate_schema_markup p) = some (SVal.s d) := by
  simp [generate_schema_markup, field_mapping, lookup_append, oOr, List.lookup,
    mapEntry_lookup_ne,
    mapEntry_defined_plain p "description" "description" d hd (by decide),
    offerPart_lookup_ne, ratingPart_lookup_ne]

theorem gen_lookup_url (p : Row) (l : String)
    (hl : definedStr p "link" = some l) :
    List.lookup "url" (generate_schema_markup p) = some (SVal.s l) := by
  simp [generate_schema_markup, field_mapping, lookup_append, oOr, List.lookup,
    mapEntry_lookup_ne, mapEntry_defined_plain p "link" "url" l hl (by decide),
    offerPart_lookup_ne, ratingPart_lookup_ne]

theorem gen_lookup_image (p : Row) (im : String)
    (him : definedStr p "image_link" = some im) :
    List.lookup "image" (generate_schema_markup p) = some (SVal.s im) := by
  simp [generate_schema_markup, field_mapping, lookup_append, oOr, List.lookup,
    mapEntry_lookup_ne,
    mapEntry_defined_plain p "image_link" "image" im him (by decide),
    offerPart_lookup_ne, ratingPart_lookup_ne]

theorem gen_lookup_brand (p : Row) (b : String)
    (hb : definedStr p "brand" = some b) :
    List.lookup "brand" (generate_schema_markup p)
      = some (SVal.obj [("@type", SVal.s "Brand"), ("name", SVal.s b)]) := by
  simp [generate_schema_markup, field_mapping, lookup_append, oOr, List.lookup,
    mapEntry_lookup_ne, mapEntry_defined_brand p "brand" b hb,
    offerPart_lookup_ne, ratingPart_lookup_ne]

theorem offerPart_absent (p : Row) (hp : definedStr p "price" = none) :
    offerPart p = [] := by
  simp [offerPart, hp]

theorem gen_lookup_offers_none (p : Row) (hp : definedStr p "price" = none) :
    List.lookup "offers" (generate_schema_markup p) = none := by
  simp [generate_schema_markup, field_mapping, lookup_append, oOr, List.lookup,
    mapEntry_lookup_ne, offerPart_absent p hp, ratingPart_lookup_ne]

theorem gen_lookup_offers (p : Row) (ps : String)
    (hp : definedStr p "price" = some ps) :
    List.lookup "offers" (generate_schema_markup p)
      = some (SVal.obj (offerObj p ps)) := by
  simp [generate_schema_markup, field_mapping, lookup_append, oOr, List.lookup,
    mapEntry_lookup_ne, offerPart, hp, ratingPart_lookup_ne]

theorem offerObj_lookup_price (p : Row) (ps : String) :
    List.lookup "price" (offerObj p ps) = some (SVal.s (headTok ps)) := by
  simp [offerObj, List.lookup]

theorem offerObj_lookup_priceCurrency (p : Row) (ps : String) :
    List.lookup "priceCurrency" (offerObj p ps)
      = some (SVal.s (secondTok ps)) := by
  simp [offerObj, List.lookup]

theorem offerObj_lookup_avail_none (p : Row) (ps : String)
    (ha : definedStr p "availability" = none) :
    List.lookup "availability" (offerObj p ps) = none := by
  simp [offerObj, List.lookup, lookup_append, oOr, offerAvailEntry, ha,
    offerUrlEntry_lookup_ne, offerSellerEntry_lookup_ne]

theorem offerObj_lookup_avail_some (p : Row) (ps a : String)
    (ha : definedStr p "availability" = some a) :
    List.lookup "availability" (offerObj p ps)
      = some (SVal.s (availLookup (pyLower a))) := by
  simp [offerObj, List.lookup, lookup_append, oOr, offerAvailEntry, ha]

theorem offersExtract_gen_none (p : Row) (hp : definedStr p "price" = none) :
    offersExtract (generate_schema_markup p) = some [] := by
  simp [offersExtract, gen_lookup_offers_none p hp]

theorem offersExtract_gen_avail_none (p : Row) (ps : String)
    (hp : definedStr p "price" = some ps)
    (ha : definedStr p "availability" = none) :
    offersExtract (generate_schema_markup p)
      = some [("price", SVal.s (headTok ps ++ " " ++ secondTok ps))] := by
  simp [offersExtract, gen_lookup_offers p ps hp, offerObj_lookup_price,
    offerObj_lookup_priceCurrency, offerObj_lookup_avail_none p ps ha, pyFStr]

theorem offersExtract_gen_avail_some (p : Row) (ps a : String)
    (hp : definedStr p "price" = some ps)
    (ha : definedStr p "availability" = some a) :
    offersExtract (generate_schema_markup p)
      = some ([("price", SVal.s (headTok ps ++ " " ++ secondTok ps))]
          ++ availExtractChain (pyLower (availLookup (pyLower a))).toList) := by
  simp [offersExtract, gen_lookup_offers p ps hp, offerObj_lookup_price,
    offerObj_lookup_priceCurrency, offerObj_lookup_avail_some p ps a ha, pyFStr]

theorem extract_gen_shape (p : Row) :
    ∃ off, offersExtract (generate_schema_markup p) = some off
      ∧ extract_product_from_schema (generate_schema_markup p)
          = some (extractEntries (generate_schema_markup p) extract_mapping
              ++ brandPart (generate_schema_markup p) ++ off
              ++ ratingExtract (generate_schema_markup p)) := by
  have hsome : ∃ off, offersExtract (generate_schema_markup p) = some off := by
    rcases hp : definedStr p "price" with _ | ps
    · exact ⟨_, offersExtract_gen_none p hp⟩
    · rcases ha : definedStr p "availability" with _ | a
      · exact ⟨_, offersExtract_gen_avail_none p ps hp ha⟩
      · exact ⟨_, offersExtract_gen_avail_some p ps a hp ha⟩
  obtain ⟨off, hoff⟩ := hsome
  exact ⟨off, hoff, by simp [extract_product_from_schema, hoff]⟩

theorem brandPart_found (p : Row) (b : String)
    (hb : definedStr p "brand" = some b) :
    brandPart (generate_schema_markup p) = [("brand", SVal.s b)] := by
  unfold brandPart
  rw [gen_lookup_brand p b hb]
  simp [List.lookup]

/-- C3: feeding the mapper's markup document into the extractor always
succeeds and recovers a record whose defined scalar fields (title,
description, link, brand name, image) equal the original values; a price
`"79.99 USD"` is recovered as the same string `"79.99 USD"`, and an
availability `"in_stock"` round-trips through the offer's availability URI
back to `"in_stock"`. -/
theorem markup_roundtrip (p : Row) :
    ∃ rec, extract_product_from_schema (generate_schema_markup p) = some rec
  ∧ (∀ t, definedStr p "title" = some t →
       List.lookup "title" rec = some (SVal.s t))
  ∧ (∀ d, definedStr p "description" = some d →
       List.lookup "description" rec = some (SVal.s d))
  ∧ (∀ l, definedStr p "link" = some l →
       List.lookup "link" rec = some (SVal.s l))
  ∧ (∀ b, definedStr p "brand" = some b →
       List.lookup "brand" rec = some (SVal.s b))
  ∧ (∀ im, definedStr p "image_link" = some im →
       List.lookup "image_link" rec = some (SVal.s im))
  ∧ (definedStr p "price" = some "79.99 USD" →
       List.lookup "price" rec = some (SVal.s "79.99 USD"))
  ∧ (definedStr p "price" = some "79.99 USD" →
     definedStr p "availability" = some "in_stock" →
       List.lookup "availability" rec = some (SVal.s "in_stock")) := by
  obtain ⟨off, hoff, hex⟩ := extract_gen_shape p
  refine ⟨_, hex, ?_, ?_, ?_, ?_, ?_, ?_, ?_⟩
  · intro t ht
    simp [extractEntries, extract_mapping, lookup_append, oOr,
      extEntry_found _ _ _ _ (gen_lookup_name p t ht), extractMapVal,
      List.lookup]
  · intro d hd
    simp [extractEntries, extract_mapping, lookup_append, oOr,
      extEntry_lookup_ne,
      extEntry_found _ _ _ _ (gen_lookup_description p d hd), extractMapVal,
      List.lookup]
  · intro l hl
    simp [extractEntries, extract_mapping, lookup_append, oOr,
      extEntry_lookup_ne,
      extEntry_found _ _ _ _ (gen_lookup_url p l hl), extractMapVal,
      List.lookup]
  · intro b hb
    simp [extractEntries, extract_mapping, lookup_append, oOr,
      extEntry_lookup_ne, brandPart_found p b hb, List.lookup]
  · intro im him
    simp [extractEntries, extract_mapping, lookup_append, oOr,
      extEntry_lookup_ne,
      extEntry_found _ _ _ _ (gen_lookup_image p im him), extractMapVal,
      List.lookup]
  · intro hp
    rcases ha : definedStr p "availability" with _ | a
    · obtain rfl := Option.some.inj
        (hoff.symm.trans (offersExtract_gen_avail_none p _ hp ha))
      simp [extractEntries, extract_mapping, lookup_append, oOr,
        extEntry_lookup_ne, brandPart_lookup_ne, List.lookup,
        show (headTok "79.99 USD" ++ " " ++ secondTok "79.99 USD" : String)
            = "79.99 USD" from by decide]
    · obtain rfl := Option.some.inj
        (hoff.symm.trans (offersExtract_gen_avail_some p _ a hp ha))
      simp [extractEntries, extract_mapping, lookup_append, oOr,
        extEntry_lookup_ne, brandPart_lookup_ne, List.lookup,
        show (headTok "79.99 USD" ++ " " ++ secondTok "79.99 USD" : String)
            = "79.99 USD" from by decide]
  · intro hp hav
    obtain rfl := Option.some.inj
      (hoff.symm.trans (offersExtract_gen_avail_some p _ "in_stock" hp hav))
    have hchain : availExtractChain
        (pyLower (availLookup (pyLower "in_stock"))).toList
        = [("availability", SVal.s "in_stock")] := rfl
    simp [extractEntries, extract_mapping, lookup_append, oOr,
      extEntry_lookup_ne, brandPart_lookup_ne, hchain, List.lookup]

/-- Witness for C3 at a concrete fully-populated record. -/
theorem markup_roundtrip_witness :
    ∃ rec,
      extract_product_from_schema (generate_schema_markup rowRoundtrip)
        = some rec
    ∧ List.lookup "title" rec = some (SVal.s "Shoe")
    ∧ List.lookup "description" rec = some (SVal.s "Trail shoe")
    ∧ List.lookup "link" rec = some (SVal.s "https://a.com/p")
    ∧ List.lookup "brand" rec = some (SVal.s "Acme")
    ∧ List.lookup "image_link" rec = some (SVal.s "https://a.com/i.jpg")
    ∧ List.lookup "price" rec = some (SVal.s "79.99 USD")
    ∧ List.lookup "availability" rec = some (SVal.s "in_stock") := by
  obtain ⟨rec, hex, ht, hd, hl, hb, him, hp, hav⟩ :=
    markup_roundtrip rowRoundtrip
  exact ⟨rec, hex, ht "Shoe" (by decide), hd "Trail shoe" (by decide),
    hl "https://a.com/p" (by decide), hb "Acme" (by decide),
    him "https://a.com/i.jpg" (by decide), hp (by decide),
    hav (by decide) (by decide)⟩
